import Mathlib

/-!
Shallow embedding of the galaxy particle demo (`src/components/GalaxyCanvas.tsx`).

The GLSL vertex shader and the JavaScript interaction code compute with
IEEE floats; every float value is a rational number, so the arithmetic is
embedded over `ℚ` (for the executable parts) and, for the shader cycle
statement quantified over all reals, over any linear ordered field with a
floor, instantiated at `ℝ`.  `Math.sqrt`, whose exact value is irrational,
is modelled as an uninterpreted function parameter `sq` of the detection
step; no theorem below depends on its values.
-/

section ShaderMath

variable {α : Type} [LinearOrderedField α] [FloorRing α]

/-- GLSL `mod(x, y) = x - y * floor(x/y)` (the shader's `mod`). -/
def glslMod (x y : α) : α := x - y * ⌊x / y⌋

/-- GLSL `clamp(x, lo, hi) = min(max(x, lo), hi)`. -/
def glslClamp (x lo hi : α) : α := min (max x lo) hi

/-- GLSL `smoothstep(e0, e1, x)`: clamp `(x-e0)/(e1-e0)` to `[0,1]`, then
apply the cubic `t*t*(3 - 2*t)`. -/
def smoothstep (e0 e1 x : α) : α :=
  (glslClamp ((x - e0) / (e1 - e0)) 0 1) * (glslClamp ((x - e0) / (e1 - e0)) 0 1) *
    (3 - 2 * (glslClamp ((x - e0) / (e1 - e0)) 0 1))

/-- The constant `float maxRadius = 6.0;` from the vertex shader. -/
def maxRadius : α := 6

/-- The wrapped cycle radius of the vertex shader:
`float t = uTime * aSpeed * 0.8 + aOffset; float r = mod(t, maxRadius);`. -/
def particleR (uTime aSpeed aOffset : α) : α :=
  glslMod (uTime * aSpeed * 0.8 + aOffset) maxRadius

/-- The shader line `float normalizedR = r / maxRadius;`. -/
def normalizedR (r : α) : α := r / maxRadius

/-- The shader line `float fadeIn = smoothstep(0.0, 0.1, normalizedR);`. -/
def fadeIn (r : α) : α := smoothstep 0 0.1 (normalizedR r)

/-- The shader line `float fadeOut = 1.0 - smoothstep(0.7, 1.0, normalizedR);`. -/
def fadeOut (r : α) : α := 1 - smoothstep 0.7 1 (normalizedR r)

/-- The shader line `vAlpha = fadeIn * fadeOut;` — the particle opacity as a
function of the wrapped radius `r`. -/
def vAlpha (r : α) : α := fadeIn r * fadeOut r

end ShaderMath

section Smoothing

/-- The constant `const lerpFactor = 0.1;` from `animate`. -/
def lerpFactor : ℚ := 0.1

/-- One render-frame smoothing update:
`currentScale += (targetScale - currentScale) * lerpFactor;`. -/
def lerpStep (target current : ℚ) : ℚ := current + (target - current) * lerpFactor

/-- Iterates `n` successive render-frame smoothing updates toward a constant
target. -/
def lerpIter (target : ℚ) : ℕ → ℚ → ℚ
  | 0, current => current
  | n + 1, current => lerpStep target (lerpIter target n current)

end Smoothing

section VisionModel

/-- A hand landmark as delivered by the detector (`HandLandmark` in
`src/types.ts`): normalized image coordinates. -/
structure Landmark where
  x : ℚ
  y : ℚ
  z : ℚ
deriving DecidableEq

/-- One hand: an ordered sequence of landmarks (index 4 = thumb tip,
index 8 = index fingertip, index 9 = palm center). -/
def Hand : Type := List Landmark

/-- Default landmark used to total out-of-range indexing (a real detection
always carries 21 landmarks, so it is never hit on real data). -/
def defaultLm : Landmark := ⟨0, 0, 0⟩

/-- The mutable interaction and status state of `GalaxyCanvas`'s effect
closure: `status`, whether the `loadeddata` callback has started the
`predictWebcam` loop, `lastVideoTime`, the target and current manipulation
values, plus a ghost counter of `detectForVideo` invocations. -/
structure SysState where
  status : String
  visionStarted : Bool
  lastVideoTime : ℚ
  detectCalls : ℕ
  targetScale : ℚ
  currentScale : ℚ
  targetTiltX : ℚ
  targetTiltY : ℚ
  currentTiltX : ℚ
  currentTiltY : ℚ
deriving DecidableEq

/-- Initial values: `status = "INITIALIZING..."`, `lastVideoTime = -1`,
`targetScale = 1.0`, `currentScale = 1.0`, tilts `0`. -/
def initState : SysState :=
  { status := "INITIALIZING..."
    visionStarted := false
    lastVideoTime := -1
    detectCalls := 0
    targetScale := 1
    currentScale := 1
    targetTiltX := 0
    targetTiltY := 0
    currentTiltX := 0
    currentTiltY := 0 }

/-- The events that drive the state: the camera stream's `loadeddata`
callback, a failed acquisition (`catch` in `startVision`), one
`predictWebcam` invocation (carrying the video timestamp and the hands the
detector would report for that frame), and one `animate` render frame. -/
inductive VisionEvent where
  | streamOk : VisionEvent
  | streamFail : VisionEvent
  | frame : ℚ → List Hand → VisionEvent
  | render : VisionEvent

/-- The line `const clampDist = Math.max(0.02, Math.min(0.3, dist));`. -/
def clampDistOf (dist : ℚ) : ℚ := max 0.02 (min 0.3 dist)

/-- The line `targetScale = 0.5 + ((clampDist - 0.02) / 0.28) * 4.5;` as a
function of the measured pinch distance. -/
def targetScaleOfDist (dist : ℚ) : ℚ := 0.5 + ((clampDistOf dist - 0.02) / 0.28) * 4.5

/-- One step of the system. `sq` models `Math.sqrt` (an uninterpreted
function on rationals; no result below depends on its values).

* `streamOk`: the `loadeddata` listener — `setStatus("SYSTEM READY")` and
  the `predictWebcam` loop starts.
* `streamFail`: the `catch` branch of `startVision` —
  `setStatus("CAMERA ERROR")`; the loop never starts.
* `frame ct hands`: one `predictWebcam` invocation. It only runs once the
  loop has started; if `ct` equals the stored `lastVideoTime` the whole
  detection body is skipped. Otherwise `detectForVideo` is called (counted
  by `detectCalls`) and, if at least one hand is present, the pinch
  distance sets `targetScale` and landmark 9 sets the tilt targets with
  `setStatus("HAND LOCKED")`; with no hands only
  `setStatus("SCANNING SPACE...")` runs.
* `render`: one `animate` frame — the three `current += (target - current)
  * lerpFactor` updates. -/
def step (sq : ℚ → ℚ) (s : SysState) (e : VisionEvent) : SysState :=
  match e with
  | .streamOk => { s with status := "SYSTEM READY", visionStarted := true }
  | .streamFail => { s with status := "CAMERA ERROR" }
  | .frame ct hands =>
      if s.visionStarted then
        if ct = s.lastVideoTime then s
        else
          let s1 := { s with lastVideoTime := ct, detectCalls := s.detectCalls + 1 }
          match hands with
          | [] => { s1 with status := "SCANNING SPACE..." }
          | hand :: _ =>
              let thumb := hand.getD 4 defaultLm
              let indexFinger := hand.getD 8 defaultLm
              let dist := sq ((thumb.x - indexFinger.x) ^ 2 + (thumb.y - indexFinger.y) ^ 2)
              let clampDist := max 0.02 (min 0.3 dist)
              let handCenter := hand.getD 9 defaultLm
              { s1 with
                status := "HAND LOCKED"
                targetScale := 0.5 + ((clampDist - 0.02) / 0.28) * 4.5
                targetTiltY := (handCenter.x - 0.5) * (-3.0)
                targetTiltX := (handCenter.y - 0.5) * 3.0 }
      else s
  | .render =>
      { s with
        currentScale := s.currentScale + (s.targetScale - s.currentScale) * lerpFactor
        currentTiltX := s.currentTiltX + (s.targetTiltX - s.currentTiltX) * lerpFactor
        currentTiltY := s.currentTiltY + (s.targetTiltY - s.currentTiltY) * lerpFactor }

/-- Run a whole sequence of events from a state. -/
def run (sq : ℚ → ℚ) (s : SysState) (evs : List VisionEvent) : SysState :=
  evs.foldl (step sq) s

/-- Events other than the two stream-acquisition callbacks. -/
def isDetectionOrRender : VisionEvent → Prop
  | .streamOk => False
  | .streamFail => False
  | .frame _ _ => True
  | .render => True

end VisionModel
section ParticleGroups

/-- The kind of an entry of the `items` array in `initScene`. -/
inductive ItemKind where
  | text : ItemKind
  | shape : ItemKind
deriving DecidableEq

/-- One entry of the `items` array: `{ type, value, color }`. -/
structure Item where
  kind : ItemKind
  value : String
  color : String
deriving DecidableEq

/-- The constant `const totalParticles = 1400;` from `initScene`. -/
def totalParticles : ℕ := 1400

/-- The `items` array of `initScene`: twelve glyphs and six shapes. -/
def items : List Item :=
  [ ⟨.text, "H", "#FFD700"⟩
  , ⟨.text, "u", "#FFD700"⟩
  , ⟨.text, "a", "#FFD700"⟩
  , ⟨.text, "n", "#FFD700"⟩
  , ⟨.text, "g", "#FFD700"⟩
  , ⟨.text, "X", "#FF69B4"⟩
  , ⟨.text, "i", "#FF69B4"⟩
  , ⟨.text, "n", "#FF69B4"⟩
  , ⟨.text, "Y", "#00FFFF"⟩
  , ⟨.text, "i", "#00FFFF"⟩
  , ⟨.text, "n", "#00FFFF"⟩
  , ⟨.text, "g", "#00FFFF"⟩
  , ⟨.shape, "star", "#FF8C00"⟩
  , ⟨.shape, "heart", "#FF0055"⟩
  , ⟨.shape, "circle", "#FFFFFF"⟩
  , ⟨.shape, "diamond", "#9D00FF"⟩
  , ⟨.shape, "star", "#32CD32"⟩
  , ⟨.shape, "circle", "#00BFFF"⟩ ]

/-- The line `const count = totalParticles / items.length;` — JavaScript
division is exact rational division here (`1400 / 18` is not an integer). -/
def countPerItem : ℚ := (totalParticles : ℚ) / (items.length : ℚ)

/-- The number of iterations of the JavaScript loop
`for (let i = 0; i < count; i++)` with a (possibly fractional) bound:
the number of naturals `i` with `i < c`. -/
def jsLoopCount (c : ℚ) : ℕ := (Int.ceil c).toNat

/-- The per-group particle counts produced by `items.forEach`: every group
runs the same loop with the same bound. -/
def groupCounts : List ℕ := items.map (fun _ => jsLoopCount countPerItem)

end ParticleGroups
/-- The scale part of the manipulation state stays in the remap range. -/
def scaleInv (s : SysState) : Prop :=
  1 / 2 ≤ s.targetScale ∧ s.targetScale ≤ 5 ∧ 1 / 2 ≤ s.currentScale ∧ s.currentScale ≤ 5

section ShaderLemmas

variable {α : Type} [LinearOrderedField α] [FloorRing α]

theorem glslMod_eq_fract_mul (x y : α) (hy : y ≠ 0) :
    glslMod x y = y * Int.fract (x / y) := by
  unfold glslMod Int.fract
  field_simp

theorem glslMod_nonneg (x y : α) (hy : 0 < y) : 0 ≤ glslMod x y := by
  rw [glslMod_eq_fract_mul x y hy.ne']
  exact mul_nonneg hy.le (Int.fract_nonneg _)

theorem glslMod_lt (x y : α) (hy : 0 < y) : glslMod x y < y := by
  rw [glslMod_eq_fract_mul x y hy.ne']
  calc y * Int.fract (x / y) < y * 1 :=
        mul_lt_mul_of_pos_left (Int.fract_lt_one _) hy
    _ = y := mul_one y

end ShaderLemmas

section ShaderLemmasQ

theorem smoothstep_nonneg (e0 e1 x : ℚ) : 0 ≤ smoothstep e0 e1 x := by
  unfold smoothstep glslClamp
  set t : ℚ := min (max ((x - e0) / (e1 - e0)) 0) 1 with ht
  have ht0 : 0 ≤ t := le_min (le_max_right _ 0) zero_le_one
  have ht1 : t ≤ 1 := min_le_right _ 1
  nlinarith [sq_nonneg t]

theorem smoothstep_le_one (e0 e1 x : ℚ) : smoothstep e0 e1 x ≤ 1 := by
  unfold smoothstep glslClamp
  set t : ℚ := min (max ((x - e0) / (e1 - e0)) 0) 1 with ht
  have ht0 : 0 ≤ t := le_min (le_max_right _ 0) zero_le_one
  have ht1 : t ≤ 1 := min_le_right _ 1
  nlinarith [sq_nonneg (1 - t)]

theorem fadeOut_tail_bound (r : ℚ) (h1 : 21 / 5 ≤ r) (h2 : r ≤ 6) :
    fadeOut r ≤ 2 * (6 - r) := by
  have hv : ((r / 6 - 0.7) / ((1 : ℚ) - 0.7)) = (5 * r - 21) / 9 := by
    norm_num
    ring
  unfold fadeOut smoothstep glslClamp normalizedR maxRadius
  rw [hv]
  have hu0 : (0 : ℚ) ≤ (5 * r - 21) / 9 := by
    apply div_nonneg _ (by norm_num)
    linarith
  have hu1 : ((5 * r - 21) / 9 : ℚ) ≤ 1 := by
    rw [div_le_one (by norm_num : (0:ℚ) < 9)]
    linarith
  rw [max_eq_left hu0, min_eq_left hu1]
  have h6 : (0 : ℚ) ≤ 6 - r := by linarith
  have h18 : (6 : ℚ) - r ≤ 9 / 5 := by linarith
  nlinarith [mul_nonneg h6 h6, mul_nonneg (mul_nonneg h6 h6) h6]

theorem vAlpha_tail_bound (r : ℚ) (h1 : 21 / 5 ≤ r) (h2 : r ≤ 6) :
    vAlpha r ≤ 2 * (6 - r) := by
  have hfo : (0 : ℚ) ≤ fadeOut r := by
    have := smoothstep_le_one 0.7 1 (normalizedR r)
    unfold fadeOut
    linarith
  calc vAlpha r = fadeIn r * fadeOut r := rfl
    _ ≤ 1 * fadeOut r := by
        exact mul_le_mul_of_nonneg_right (smoothstep_le_one 0 0.1 (normalizedR r)) hfo
    _ = fadeOut r := one_mul _
    _ ≤ 2 * (6 - r) := fadeOut_tail_bound r h1 h2

end ShaderLemmasQ

section SmoothingLemmas


theorem lerpIter_closed_form (target current : ℚ) (n : ℕ) :
    lerpIter target n current - target = (9 / 10) ^ n * (current - target) := by
  induction n with
  | zero => simp [lerpIter]
  | succ n ih =>
      have : lerpIter target (n + 1) current = lerpStep target (lerpIter target n current) := rfl
      rw [this]
      unfold lerpStep lerpFactor
      have h9 : lerpIter target n current = target + (9 / 10) ^ n * (current - target) := by
        linarith [ih]
      rw [h9]
      ring

end SmoothingLemmas

/-- Lemma: `jsLoopCount` is the exact iteration set of the loop: index `i`
is executed iff `i < c`. -/
theorem jsLoopCount_spec (c : ℚ) (i : ℕ) : (i : ℚ) < c ↔ i < jsLoopCount c := by
  unfold jsLoopCount
  rw [Int.lt_toNat, Int.lt_ceil]
  norm_cast

section ModelLemmas

theorem targetScaleOfDist_mem (d : ℚ) :
    1 / 2 ≤ targetScaleOfDist d ∧ targetScaleOfDist d ≤ 5 := by
  unfold targetScaleOfDist clampDistOf
  have h1 : (0.02 : ℚ) ≤ max 0.02 (min 0.3 d) := le_max_left _ _
  have h2 : max (0.02 : ℚ) (min 0.3 d) ≤ 0.3 := max_le (by norm_num) (min_le_left _ _)
  have key : (0.5 : ℚ) + ((max 0.02 (min 0.3 d) - 0.02) / 0.28) * 4.5
      = 0.5 + (max 0.02 (min 0.3 d) - 0.02) * (225 / 14) := by ring
  rw [key]
  constructor <;> nlinarith

theorem step_frame_none (sq : ℚ → ℚ) (s : SysState) (ct : ℚ)
    (hv : s.visionStarted = true) (hct : ct ≠ s.lastVideoTime) :
    step sq s (.frame ct []) =
      { s with
        lastVideoTime := ct
        detectCalls := s.detectCalls + 1
        status := "SCANNING SPACE..." } := by
  simp only [step]
  rw [if_pos hv, if_neg hct]

theorem step_frame_hand (sq : ℚ → ℚ) (s : SysState) (ct : ℚ) (hand : Hand) (rest : List Hand)
    (hv : s.visionStarted = true) (hct : ct ≠ s.lastVideoTime) :
    step sq s (.frame ct (hand :: rest)) =
      { s with
        lastVideoTime := ct
        detectCalls := s.detectCalls + 1
        status := "HAND LOCKED"
        targetScale := targetScaleOfDist (sq (((hand.getD 4 defaultLm).x - (hand.getD 8 defaultLm).x) ^ 2
          + ((hand.getD 4 defaultLm).y - (hand.getD 8 defaultLm).y) ^ 2))
        targetTiltY := ((hand.getD 9 defaultLm).x - 0.5) * (-3.0)
        targetTiltX := ((hand.getD 9 defaultLm).y - 0.5) * 3.0 } := by
  simp only [step, targetScaleOfDist, clampDistOf]
  rw [if_pos hv, if_neg hct]

theorem lerp_update_mem (a b : ℚ)
    (ha1 : 1 / 2 ≤ a) (ha2 : a ≤ 5) (hb1 : 1 / 2 ≤ b) (hb2 : b ≤ 5) :
    1 / 2 ≤ a + (b - a) * lerpFactor ∧ a + (b - a) * lerpFactor ≤ 5 := by
  unfold lerpFactor
  constructor <;> linarith

theorem scaleInv_step (sq : ℚ → ℚ) (s : SysState) (e : VisionEvent) (h : scaleInv s) :
    scaleInv (step sq s e) := by
  obtain ⟨h1, h2, h3, h4⟩ := h
  cases e with
  | streamOk => exact ⟨h1, h2, h3, h4⟩
  | streamFail => exact ⟨h1, h2, h3, h4⟩
  | render => exact ⟨h1, h2, lerp_update_mem _ _ h3 h4 h1 h2⟩
  | frame ct hands =>
      by_cases hv : s.visionStarted = true
      · by_cases hct : ct = s.lastVideoTime
        · simp only [step]
          rw [if_pos hv, if_pos hct]
          exact ⟨h1, h2, h3, h4⟩
        · cases hands with
          | nil =>
              rw [step_frame_none sq s ct hv hct]
              exact ⟨h1, h2, h3, h4⟩
          | cons hand rest =>
              rw [step_frame_hand sq s ct hand rest hv hct]
              exact ⟨(targetScaleOfDist_mem _).1, (targetScaleOfDist_mem _).2, h3, h4⟩
      · simp only [step]
        rw [if_neg hv]
        exact ⟨h1, h2, h3, h4⟩

theorem scaleInv_run (sq : ℚ → ℚ) (evs : List VisionEvent) (s : SysState) (h : scaleInv s) :
    scaleInv (run sq s evs) := by
  induction evs generalizing s with
  | nil => exact h
  | cons e rest ih => exact ih (step sq s e) (scaleInv_step sq s e h)

theorem status_frozen_step (sq : ℚ → ℚ) (s : SysState) (e : VisionEvent)
    (he : isDetectionOrRender e) (hv : s.visionStarted = false) :
    (step sq s e).status = s.status ∧ (step sq s e).visionStarted = false := by
  cases e with
  | streamOk => exact he.elim
  | streamFail => exact he.elim
  | render => exact ⟨rfl, hv⟩
  | frame ct hands =>
      simp only [step]
      rw [if_neg (by simp [hv])]
      exact ⟨rfl, hv⟩

theorem status_frozen_run (sq : ℚ → ℚ) (evs : List VisionEvent)
    (hevs : ∀ e ∈ evs, isDetectionOrRender e) (s : SysState) (hv : s.visionStarted = false) :
    (run sq s evs).status = s.status ∧ (run sq s evs).visionStarted = false := by
  induction evs generalizing s with
  | nil => exact ⟨rfl, hv⟩
  | cons e rest ih =>
      have he := hevs e (List.mem_cons_self e rest)
      have hstep := status_frozen_step sq s e he hv
      have htail := ih (fun x hx => hevs x (List.mem_cons_of_mem e hx)) (step sq s e) hstep.2
      exact ⟨htail.1.trans hstep.1, htail.2⟩

end ModelLemmas
/-- Claim C1: for every global time, particle speed and phase offset, the
wrapped radius `r = mod(uTime*aSpeed*0.8 + aOffset, maxRadius)` computed by
the vertex shader satisfies `0 ≤ r < 6`, including for negative time. -/
theorem particleR_range (uTime aSpeed aOffset : ℝ) :
    0 ≤ particleR uTime aSpeed aOffset ∧ particleR uTime aSpeed aOffset < 6 := by
  have h6 : (0 : ℝ) < maxRadius := by norm_num [maxRadius]
  constructor
  · exact glslMod_nonneg _ _ h6
  · have h := glslMod_lt (uTime * aSpeed * 0.8 + aOffset) (maxRadius : ℝ) h6
    simpa [particleR, maxRadius] using h

/-- Claim C2: the per-particle alpha is the product of the fade-in
smoothstep over the first 10% and the fade-out over the last 30% of the
normalized cycle; it is `0` at `r = 0`, is bounded by `2*(maxRadius - r)`
near the outer boundary (hence tends to `0` as `r` approaches `maxRadius`),
and `alpha(0.05*maxRadius) < alpha(0.4*maxRadius)` and
`alpha(0.95*maxRadius) < alpha(0.4*maxRadius)`. -/
theorem vAlpha_lifecycle (r : ℚ) (hr1 : 21 / 5 ≤ r) (hr2 : r ≤ 6) :
    (∀ u : ℚ, vAlpha u = fadeIn u * fadeOut u) ∧
    vAlpha (0 : ℚ) = 0 ∧
    vAlpha ((0.05 : ℚ) * maxRadius) < vAlpha ((0.4 : ℚ) * maxRadius) ∧
    vAlpha ((0.95 : ℚ) * maxRadius) < vAlpha ((0.4 : ℚ) * maxRadius) ∧
    vAlpha r ≤ 2 * ((maxRadius : ℚ) - r) := by
  refine ⟨fun u => rfl, ?_, ?_, ?_, ?_⟩
  · norm_num [vAlpha, fadeIn, fadeOut, smoothstep, glslClamp, normalizedR, maxRadius]
  · norm_num [vAlpha, fadeIn, fadeOut, smoothstep, glslClamp, normalizedR, maxRadius]
  · norm_num [vAlpha, fadeIn, fadeOut, smoothstep, glslClamp, normalizedR, maxRadius]
  · have h := vAlpha_tail_bound r hr1 hr2
    simpa [maxRadius] using h

/-- Witness for C2 at `r = 5.9`. -/
theorem vAlpha_lifecycle_check :
    (21 / 5 : ℚ) ≤ 59 / 10 ∧ vAlpha (59 / 10 : ℚ) ≤ 2 * ((maxRadius : ℚ) - 59 / 10) :=
  ⟨by norm_num, (vAlpha_lifecycle (59 / 10) (by norm_num) (by norm_num)).2.2.2.2⟩

/-- Claim C3: the pinch-to-scale mapping clamps the thumb/index distance to
`[0.02, 0.30]` and remaps linearly: `dist = 0.02` gives `0.5`,
`dist = 0.30` gives `5.0`, any `dist > 0.30` gives the same target as
`0.30`, and the detection step's written `targetScale` is exactly this
mapping applied to the measured distance. -/
theorem pinch_scale_remap (d : ℚ) (hd : (0.3 : ℚ) < d) (sq : ℚ → ℚ) (s : SysState) (ct : ℚ)
    (hand : Hand) (rest : List Hand)
    (hv : s.visionStarted = true) (hct : ct ≠ s.lastVideoTime) :
    targetScaleOfDist 0.02 = 0.5 ∧
    targetScaleOfDist 0.3 = 5 ∧
    targetScaleOfDist d = targetScaleOfDist 0.3 ∧
    (step sq s (.frame ct (hand :: rest))).targetScale =
      targetScaleOfDist (sq (((hand.getD 4 defaultLm).x - (hand.getD 8 defaultLm).x) ^ 2
        + ((hand.getD 4 defaultLm).y - (hand.getD 8 defaultLm).y) ^ 2)) := by
  refine ⟨?_, ?_, ?_, ?_⟩
  · norm_num [targetScaleOfDist, clampDistOf]
  · norm_num [targetScaleOfDist, clampDistOf]
  · unfold targetScaleOfDist clampDistOf
    rw [min_eq_left hd.le, min_self]
  · rw [step_frame_hand sq s ct hand rest hv hct]

/-- Witness for C3: `dist = 0.5` yields the same target as `dist = 0.3`. -/
theorem pinch_scale_remap_check : targetScaleOfDist (1 / 2 : ℚ) = targetScaleOfDist 0.3 :=
  (pinch_scale_remap (1 / 2) (by norm_num) (fun x => x)
    (⟨"SYSTEM READY", true, -1, 0, 1, 1, 0, 0, 0, 0⟩ : SysState) 1 [] [] rfl (by norm_num)).2.2.1

/-- Counterexample to C4 as stated: with `current = 0`, `target = 1`, after
65 iterations the residual is `(9/10)^65 ≈ 1.0611e-3`, which is still
MORE than `1e-3` times the initial gap of `1`. -/
theorem lerp65_insufficient : 1 / 1000 < |lerpIter 1 65 0 - 1| := by
  have h := lerpIter_closed_form 1 0 65
  have h2 : lerpIter 1 65 0 - 1 = -((9 / 10 : ℚ) ^ 65) := by rw [h]; ring
  rw [h2, abs_neg, abs_of_nonneg (by positivity)]
  norm_num

/-- Claim C4 (amended): the smoothing iteration `current += (target -
current) * 0.1` has residual `(9/10)^n` times the initial gap, the residual
shrinks by exactly the factor `9/10` each iteration, the sequence moves
toward the target monotonically without overshooting, and the residual is
within `1e-3` of the initial gap within 66 iterations (`0.9^66 < 1e-3`;
65 do not suffice). -/
theorem lerp_convergence (current target : ℚ) (n : ℕ) :
    lerpIter target n current - target = (9 / 10) ^ n * (current - target) ∧
    |lerpIter target (n + 1) current - target| = 9 / 10 * |lerpIter target n current - target| ∧
    (current ≤ target →
      lerpIter target n current ≤ lerpIter target (n + 1) current ∧
      lerpIter target n current ≤ target) ∧
    (target ≤ current →
      lerpIter target (n + 1) current ≤ lerpIter target n current ∧
      target ≤ lerpIter target n current) ∧
    |lerpIter target 66 current - target| ≤ 1 / 1000 * |current - target| := by
  have hn := lerpIter_closed_form target current n
  have hn1 := lerpIter_closed_form target current (n + 1)
  have h66 := lerpIter_closed_form target current 66
  have hq0 : (0 : ℚ) ≤ (9 / 10) ^ n := by positivity
  have hq1 : ((9 : ℚ) / 10) ^ n ≤ 1 := pow_le_one₀ (by norm_num) (by norm_num)
  have e1 : lerpIter target n current = target + (9 / 10) ^ n * (current - target) := by
    linarith
  have e2 : lerpIter target (n + 1) current
      = target + (9 / 10) ^ (n + 1) * (current - target) := by
    linarith
  refine ⟨hn, ?_, ?_, ?_, ?_⟩
  · rw [hn1, hn, abs_mul, abs_mul, abs_of_nonneg (by positivity : (0:ℚ) ≤ (9/10)^(n+1)),
      abs_of_nonneg hq0]
    ring
  · intro hle
    rw [e1, e2]
    have hp : (9 / 10 : ℚ) ^ (n + 1) = 9 / 10 * (9 / 10) ^ n := by ring
    rw [hp]
    have hkey : (0 : ℚ) ≤ (9 / 10) ^ n * (target - current) :=
      mul_nonneg hq0 (sub_nonneg.mpr hle)
    constructor <;> nlinarith
  · intro hle
    rw [e1, e2]
    have hp : (9 / 10 : ℚ) ^ (n + 1) = 9 / 10 * (9 / 10) ^ n := by ring
    rw [hp]
    have hkey : (0 : ℚ) ≤ (9 / 10) ^ n * (current - target) :=
      mul_nonneg hq0 (sub_nonneg.mpr hle)
    constructor <;> nlinarith
  · rw [h66, abs_mul, abs_of_nonneg (by positivity : (0:ℚ) ≤ (9/10)^66)]
    exact mul_le_mul_of_nonneg_right (by norm_num) (abs_nonneg _)

/-- Witness for C4 at `current = 0`, `target = 1`, `n = 0`. -/
theorem lerp_convergence_check :
    lerpIter 1 0 0 ≤ lerpIter 1 1 0 ∧ lerpIter 1 0 0 ≤ 1 :=
  (lerp_convergence 0 1 0).2.2.1 (by norm_num)
theorem jsLoopCount_countPerItem : jsLoopCount countPerItem = 78 := by
  have hlen : items.length = 18 := rfl
  have hcpi : countPerItem = 1400 / 18 := by
    unfold countPerItem totalParticles
    rw [hlen]
    norm_num
  have hceil : ⌈(1400 / 18 : ℚ)⌉ = 78 := by
    rw [Int.ceil_eq_iff]
    norm_num
  unfold jsLoopCount
  rw [hcpi, hceil]
  rfl

/-- Counterexample to C5 as stated: the 1400 particles are NOT evenly
divided over the 18 entries of `items` — the JavaScript loop bound
`1400 / 18` is fractional, each group's loop runs 78 times, and the
per-group counts sum to 1404, not 1400. -/
theorem groupCounts_sum_ne_total :
    groupCounts.sum = 1404 ∧ totalParticles = 1400 ∧ groupCounts.sum ≠ totalParticles := by
  have hsum : groupCounts.sum = 1404 := by
    unfold groupCounts
    rw [jsLoopCount_countPerItem]
    rfl
  exact ⟨hsum, rfl, by rw [hsum]; decide⟩

/-- Claim C5 (amended): at field initialization every one of the 18 groups
receives the same whole number of particles, namely 78 (the ceiling of the
fractional loop bound `1400/18`); the per-group counts sum to 1404, which
exceeds the configured total of 1400 by 4. -/
theorem groupCounts_uniform : groupCounts = List.replicate items.length 78 ∧
    groupCounts.sum = totalParticles + 4 := by
  constructor
  · unfold groupCounts
    rw [jsLoopCount_countPerItem]
    rfl
  · unfold groupCounts
    rw [jsLoopCount_countPerItem]
    rfl

/-- Claim C6: a detection step in which the detector reports no landmark
set leaves all target (and current) manipulation values exactly unchanged
and only updates the status (to "SCANNING SPACE..."). -/
theorem no_landmarks_targets_held (sq : ℚ → ℚ) (s : SysState) (ct : ℚ)
    (hv : s.visionStarted = true) (hct : ct ≠ s.lastVideoTime) :
    (step sq s (.frame ct [])).targetScale = s.targetScale ∧
    (step sq s (.frame ct [])).targetTiltX = s.targetTiltX ∧
    (step sq s (.frame ct [])).targetTiltY = s.targetTiltY ∧
    (step sq s (.frame ct [])).currentScale = s.currentScale ∧
    (step sq s (.frame ct [])).currentTiltX = s.currentTiltX ∧
    (step sq s (.frame ct [])).currentTiltY = s.currentTiltY ∧
    (step sq s (.frame ct [])).status = "SCANNING SPACE..." := by
  rw [step_frame_none sq s ct hv hct]
  exact ⟨rfl, rfl, rfl, rfl, rfl, rfl, rfl⟩

/-- Witness for C6 at a concrete locked state and a fresh empty frame. -/
theorem no_landmarks_targets_held_check :
    (step (fun x => x) (⟨"HAND LOCKED", true, 2, 3, 4, 4, 1, 1, 1, 1⟩ : SysState)
        (.frame 7 [])).targetScale
      = (⟨"HAND LOCKED", true, 2, 3, 4, 4, 1, 1, 1, 1⟩ : SysState).targetScale :=
  (no_landmarks_targets_held (fun x => x)
    (⟨"HAND LOCKED", true, 2, 3, 4, 4, 1, 1, 1, 1⟩ : SysState) 7 rfl (by norm_num)).1

/-- Claim C7: the status machine — `INITIALIZING → SYSTEM READY` on the
first camera frame, `INITIALIZING → CAMERA ERROR` on acquisition failure
(terminal under all further detection-cycle and render events), and the
sequence [stream ok, no landmarks, landmarks, no landmarks] produces
SYSTEM READY, SCANNING, HAND LOCKED, SCANNING. -/
theorem status_machine (sq : ℚ → ℚ) (t1 t2 t3 : ℚ) (hand : Hand) (rest : List Hand)
    (h1 : t1 ≠ -1) (h2 : t2 ≠ t1) (h3 : t3 ≠ t2)
    (evs : List VisionEvent) (hevs : ∀ e ∈ evs, isDetectionOrRender e) :
    (step sq initState .streamOk).status = "SYSTEM READY" ∧
    (step sq (step sq initState .streamOk) (.frame t1 [])).status = "SCANNING SPACE..." ∧
    (step sq (step sq (step sq initState .streamOk) (.frame t1 []))
      (.frame t2 (hand :: rest))).status = "HAND LOCKED" ∧
    (step sq (step sq (step sq (step sq initState .streamOk) (.frame t1 []))
      (.frame t2 (hand :: rest))) (.frame t3 [])).status = "SCANNING SPACE..." ∧
    (step sq initState .streamFail).status = "CAMERA ERROR" ∧
    (run sq (step sq initState .streamFail) evs).status = "CAMERA ERROR" := by
  have e0 : step sq initState .streamOk
      = (⟨"SYSTEM READY", true, -1, 0, 1, 1, 0, 0, 0, 0⟩ : SysState) := rfl
  rw [e0]
  have e1 : step sq (⟨"SYSTEM READY", true, -1, 0, 1, 1, 0, 0, 0, 0⟩ : SysState) (.frame t1 [])
      = (⟨"SCANNING SPACE...", true, t1, 1, 1, 1, 0, 0, 0, 0⟩ : SysState) := by
    rw [step_frame_none sq _ t1 rfl h1]
  rw [e1]
  have e2 : step sq (⟨"SCANNING SPACE...", true, t1, 1, 1, 1, 0, 0, 0, 0⟩ : SysState)
      (.frame t2 (hand :: rest))
      = (⟨"HAND LOCKED", true, t2, 2,
          targetScaleOfDist (sq (((hand.getD 4 defaultLm).x - (hand.getD 8 defaultLm).x) ^ 2
            + ((hand.getD 4 defaultLm).y - (hand.getD 8 defaultLm).y) ^ 2)), 1,
          ((hand.getD 9 defaultLm).y - 0.5) * 3.0,
          ((hand.getD 9 defaultLm).x - 0.5) * (-3.0), 0, 0⟩ : SysState) := by
    rw [step_frame_hand sq _ t2 hand rest rfl h2]
  rw [e2]
  have e3 : step sq (⟨"HAND LOCKED", true, t2, 2,
          targetScaleOfDist (sq (((hand.getD 4 defaultLm).x - (hand.getD 8 defaultLm).x) ^ 2
            + ((hand.getD 4 defaultLm).y - (hand.getD 8 defaultLm).y) ^ 2)), 1,
          ((hand.getD 9 defaultLm).y - 0.5) * 3.0,
          ((hand.getD 9 defaultLm).x - 0.5) * (-3.0), 0, 0⟩ : SysState) (.frame t3 [])
      = (⟨"SCANNING SPACE...", true, t3, 3,
          targetScaleOfDist (sq (((hand.getD 4 defaultLm).x - (hand.getD 8 defaultLm).x) ^ 2
            + ((hand.getD 4 defaultLm).y - (hand.getD 8 defaultLm).y) ^ 2)), 1,
          ((hand.getD 9 defaultLm).y - 0.5) * 3.0,
          ((hand.getD 9 defaultLm).x - 0.5) * (-3.0), 0, 0⟩ : SysState) := by
    rw [step_frame_none sq _ t3 rfl h3]
  rw [e3]
  have hfail : step sq initState .streamFail
      = (⟨"CAMERA ERROR", false, -1, 0, 1, 1, 0, 0, 0, 0⟩ : SysState) := rfl
  rw [hfail]
  exact ⟨rfl, rfl, rfl, rfl, rfl, (status_frozen_run sq evs hevs _ rfl).1⟩

/-- Witness for C7 with concrete timestamps, one hand, and a follow-up
detection/render trace after the failure. -/
theorem status_machine_check :
    (step (fun x => x) initState .streamOk).status = "SYSTEM READY" :=
  (status_machine (fun x => x) 1 2 3 [] [] (by norm_num) (by norm_num) (by norm_num)
    [.frame 5 [], .render]
    (by
      intro e he
      rcases List.mem_cons.mp he with rfl | he2
      · exact trivial
      · rcases List.mem_cons.mp he2 with rfl | he3
        · exact trivial
        · cases he3)).1

/-- Claim C8: two consecutive `predictWebcam` invocations with the same
video timestamp invoke the detector exactly once — the first processes the
frame (one `detectForVideo` call), the second is a complete no-op. -/
theorem detector_dedup (sq : ℚ → ℚ) (s : SysState) (ct : ℚ) (hands1 hands2 : List Hand)
    (hv : s.visionStarted = true) (hct : ct ≠ s.lastVideoTime) :
    (step sq s (.frame ct hands1)).detectCalls = s.detectCalls + 1 ∧
    step sq (step sq s (.frame ct hands1)) (.frame ct hands2) = step sq s (.frame ct hands1) := by
  cases hands1 with
  | nil =>
      rw [step_frame_none sq s ct hv hct]
      refine ⟨rfl, ?_⟩
      simp only [step]
      simp [hv]
  | cons hand tail =>
      rw [step_frame_hand sq s ct hand tail hv hct]
      refine ⟨rfl, ?_⟩
      simp only [step]
      simp [hv]

/-- Witness for C8 at a concrete ready state and timestamp. -/
theorem detector_dedup_check :
    (step (fun x => x) (⟨"SYSTEM READY", true, -1, 0, 1, 1, 0, 0, 0, 0⟩ : SysState)
        (.frame 1 [])).detectCalls
      = (⟨"SYSTEM READY", true, -1, 0, 1, 1, 0, 0, 0, 0⟩ : SysState).detectCalls + 1 :=
  (detector_dedup (fun x => x) (⟨"SYSTEM READY", true, -1, 0, 1, 1, 0, 0, 0, 0⟩ : SysState)
    1 [] [] rfl (by norm_num)).1

/-- Claim C9: a detection with a landmark set maps the palm-center landmark
(index 9) to the tilt targets: `targetTiltY = (x - 0.5) * (-3.0)` and
`targetTiltX = (y - 0.5) * 3.0`. -/
theorem palm_tilt_map (sq : ℚ → ℚ) (s : SysState) (ct : ℚ) (hand : Hand) (rest : List Hand)
    (hv : s.visionStarted = true) (hct : ct ≠ s.lastVideoTime) :
    (step sq s (.frame ct (hand :: rest))).targetTiltY
      = ((hand.getD 9 defaultLm).x - 0.5) * (-3.0) ∧
    (step sq s (.frame ct (hand :: rest))).targetTiltX
      = ((hand.getD 9 defaultLm).y - 0.5) * 3.0 := by
  rw [step_frame_hand sq s ct hand rest hv hct]
  exact ⟨rfl, rfl⟩

/-- Witness for C9 at a concrete hand whose palm-center landmark is
`(0.6, 0.4)`. -/
theorem palm_tilt_map_check :
    (step (fun x => x) (⟨"SYSTEM READY", true, -1, 0, 1, 1, 0, 0, 0, 0⟩ : SysState)
        (.frame 1 (List.replicate 21 (⟨0.6, 0.4, 0⟩ : Landmark) :: []))).targetTiltY
      = (((List.replicate 21 (⟨0.6, 0.4, 0⟩ : Landmark)).getD 9 defaultLm).x - 0.5) * (-3.0) :=
  (palm_tilt_map (fun x => x) (⟨"SYSTEM READY", true, -1, 0, 1, 1, 0, 0, 0, 0⟩ : SysState)
    1 (List.replicate 21 (⟨0.6, 0.4, 0⟩ : Landmark)) [] rfl (by norm_num)).1

/-- Claim C10: over every interleaving of stream events, detection frames
and render frames from the initial state, `currentScale` (and
`targetScale`) stays in the closed interval `[0.5, 5.0]`. -/
theorem currentScale_bounded (sq : ℚ → ℚ) (evs : List VisionEvent) :
    1 / 2 ≤ (run sq initState evs).currentScale ∧ (run sq initState evs).currentScale ≤ 5 ∧
    1 / 2 ≤ (run sq initState evs).targetScale ∧ (run sq initState evs).targetScale ≤ 5 := by
  have h0 : scaleInv initState := by
    unfold scaleInv initState
    norm_num
  have h := scaleInv_run sq evs initState h0
  exact ⟨h.2.2.1, h.2.2.2, h.1, h.2.1⟩
